import Mathlib

/-!
Verification development for a personal budget / finance tracker
(Flask + SQLAlchemy, files `models.py` and `app.py`).

The development shallowly embeds the derived-metrics and savings-plan
computations of the application: account balances, category monthly-limit
status, the 30-day daily trend, the emotion summary, and the savings-goal
plan preparation (month counting via `dateutil.relativedelta`, net savings,
progress, milestone unlocking), together with the form-handling routes that
create savings goals and create/update transactions.

Monetary amounts (Python floats) are modelled as rationals; calendar dates
are modelled by a proleptic-Gregorian `Date` structure with the standard
leap-year rule, matching Python's `datetime.date`.
-/

/-- Calendar date with the fields of Python's `datetime.date`. -/
structure Date where
  year : Nat
  month : Nat
  day : Nat
deriving DecidableEq, Repr

/-- Gregorian leap-year test, as in Python's `calendar.isleap`. -/
def isLeap (y : Nat) : Bool := (y % 4 == 0 && y % 100 != 0) || y % 400 == 0

/-- Length of month `m` in a year whose leap flag is `leap`. -/
def daysInMonthAux (leap : Bool) : Nat → Nat
  | 2 => if leap then 29 else 28
  | 4 => 30
  | 6 => 30
  | 9 => 30
  | 11 => 30
  | _ => 31

/-- Length of month `m` of year `y`, as in `calendar.monthrange(y, m)[1]`. -/
def daysInMonth (y m : Nat) : Nat := daysInMonthAux (isLeap y) m

/-- Days contained in the months `1, …, m-1` of a year with leap flag `leap`. -/
def daysBeforeMonthAux (leap : Bool) : Nat → Nat
  | 0 => 0
  | 1 => 0
  | m + 2 => daysBeforeMonthAux leap (m + 1) + daysInMonthAux leap (m + 1)

/-- Total number of days in the years `1, …, y` of the proleptic Gregorian
calendar. -/
def daysToYear : Nat → Nat
  | 0 => 0
  | y + 1 => daysToYear y + (if isLeap (y + 1) then 366 else 365)

/-- Rata-die day number of a date (day 1 is January 1 of year 1), the value
`datetime.date.toordinal` returns; differences of ordinals are exactly
`timedelta` day counts. -/
def toOrdinal (d : Date) : Nat :=
  daysToYear (d.year - 1) + daysBeforeMonthAux (isLeap d.year) d.month + d.day

/-- The field ranges every Python `datetime.date` satisfies. -/
def Date.Valid (d : Date) : Prop :=
  1 ≤ d.year ∧ 1 ≤ d.month ∧ d.month ≤ 12 ∧ 1 ≤ d.day ∧ d.day ≤ daysInMonth d.year d.month

instance (d : Date) : Decidable d.Valid := by unfold Date.Valid; infer_instance

/-- Strict comparison of dates; Python compares `date` objects by their
`(year, month, day)` tuples. -/
def dateLt (a b : Date) : Prop :=
  a.year < b.year ∨ (a.year = b.year ∧ (a.month < b.month ∨ (a.month = b.month ∧ a.day < b.day)))

instance (a b : Date) : Decidable (dateLt a b) := by unfold dateLt; infer_instance

/-- Non-strict comparison of dates, as Python's `<=` on `date` objects. -/
def dateLe (a b : Date) : Prop := dateLt a b ∨ a = b

instance (a b : Date) : Decidable (dateLe a b) := by unfold dateLe; infer_instance

/-- Python's binary `min` on dates: returns the second argument only when it
is strictly smaller. -/
def minDate (a b : Date) : Date := if dateLt b a then b else a

/-- Index of a date's month on the infinite month axis. -/
def monthIndex (d : Date) : Nat := 12 * d.year + (d.month - 1)

/-- Adding `m` calendar months to a date, clamping the day of month to the
target month's length; this is what adding `relativedelta(months=m)` to a
Python date does. -/
def addMonths (d : Date) (m : Nat) : Date :=
  { year := (monthIndex d + m) / 12
    month := (monthIndex d + m) % 12 + 1
    day := min d.day (daysInMonth ((monthIndex d + m) / 12) ((monthIndex d + m) % 12 + 1)) }

/-- Whole-month component `delta.years * 12 + delta.months` of
`relativedelta(d1, d2)` for `d2 ≤ d1`: the raw month-index difference,
decremented once when landing past `d1` because of day-of-month clamping
(dateutil computes this with a correction loop that runs at most once in
this direction). -/
def relMonths (d1 d2 : Date) : Nat :=
  if dateLe (addMonths d2 (monthIndex d1 - monthIndex d2)) d1
  then monthIndex d1 - monthIndex d2
  else monthIndex d1 - monthIndex d2 - 1

/-- Day component `delta.days` of `relativedelta(d1, d2)` for `d2 ≤ d1`:
the day distance left after stepping `d2` forward by the whole months. -/
def relDays (d1 d2 : Date) : Int :=
  (toOrdinal d1 : Int) - toOrdinal (addMonths d2 (relMonths d1 d2))

/-- Embedding of `_ay_sayisi` (app.py): month count between two dates,
`0` when the end precedes the start and at least `1` otherwise. -/
def ay_sayisi (baslangic bitis : Date) : Nat :=
  if dateLt bitis baslangic then 0
  else max (relMonths bitis baslangic + (if 0 ≤ relDays bitis baslangic then 1 else 0)) 1

/-! ## Order and calendar lemmas -/

theorem dateLe_explicit (a b : Date) :
    dateLe a b ↔
      a.year < b.year ∨
        (a.year = b.year ∧ (a.month < b.month ∨ (a.month = b.month ∧ a.day ≤ b.day))) := by
  cases a with | mk y1 m1 d1 =>
  cases b with | mk y2 m2 d2 =>
  simp only [dateLe, dateLt, Date.mk.injEq]
  omega

theorem dateLe_refl (a : Date) : dateLe a a := Or.inr rfl

theorem dateLe_trans {a b c : Date} (h1 : dateLe a b) (h2 : dateLe b c) : dateLe a c := by
  rw [dateLe_explicit] at *
  omega

theorem dateLe_of_dateLt {a b : Date} (h : dateLt a b) : dateLe a b := Or.inl h

theorem not_dateLt_of_dateLe {a b : Date} (h : dateLe a b) : ¬ dateLt b a := by
  rw [dateLe_explicit] at h
  unfold dateLt
  omega

theorem dateLe_of_not_dateLt {a b : Date} (h : ¬ dateLt b a) : dateLe a b := by
  rw [dateLe_explicit]
  unfold dateLt at h
  omega

theorem daysInMonthAux_pos : ∀ (leap : Bool), ∀ m < 13, 1 ≤ daysInMonthAux leap m := by decide

theorem daysInMonthAux_le : ∀ (leap : Bool), ∀ m < 13, daysInMonthAux leap m ≤ 31 := by decide

theorem daysBeforeMonthAux_succ (leap : Bool) (m : Nat) (h : 1 ≤ m) :
    daysBeforeMonthAux leap (m + 1) = daysBeforeMonthAux leap m + daysInMonthAux leap m := by
  cases m with
  | zero => omega
  | succ k => rfl

theorem daysBeforeMonthAux_mono :
    ∀ (leap : Bool), ∀ m2 < 14, ∀ m1 < 14, m1 ≤ m2 →
      daysBeforeMonthAux leap m1 ≤ daysBeforeMonthAux leap m2 := by decide

theorem daysBeforeMonthAux_year :
    ∀ (leap : Bool), ∀ m < 13,
      daysBeforeMonthAux leap m + daysInMonthAux leap m ≤ (if leap then 366 else 365) := by
  decide

theorem daysToYear_succ_leap (y : Nat) (h : isLeap (y + 1) = true) :
    daysToYear (y + 1) = daysToYear y + 366 := by
  simp [daysToYear, h]

theorem daysToYear_succ_nonleap (y : Nat) (h : isLeap (y + 1) = false) :
    daysToYear (y + 1) = daysToYear y + 365 := by
  simp [daysToYear, h]

theorem daysToYear_le_succ (y : Nat) : daysToYear y ≤ daysToYear (y + 1) := by
  cases hl : isLeap (y + 1) with
  | false => rw [daysToYear_succ_nonleap y hl]; omega
  | true => rw [daysToYear_succ_leap y hl]; omega

theorem daysToYear_mono {y1 y2 : Nat} (h : y1 ≤ y2) : daysToYear y1 ≤ daysToYear y2 := by
  induction y2 with
  | zero =>
      have hy : y1 = 0 := by omega
      subst hy
      exact le_refl _
  | succ n ih =>
      by_cases hy : y1 ≤ n
      · exact le_trans (ih hy) (daysToYear_le_succ n)
      · have hz : y1 = n + 1 := by omega
        subst hz
        exact le_refl _

theorem toOrdinal_le_daysToYear (d : Date) (h : d.Valid) : toOrdinal d ≤ daysToYear d.year := by
  obtain ⟨h1, h2, h3, h4, h5⟩ := h
  unfold toOrdinal
  unfold daysInMonth at h5
  have hs : d.year - 1 + 1 = d.year := by omega
  cases hl : isLeap d.year with
  | false =>
      have hy := daysBeforeMonthAux_year false d.month (by omega)
      have hstep := daysToYear_succ_nonleap (d.year - 1) (by rw [hs]; exact hl)
      rw [hs] at hstep
      rw [hl] at h5
      norm_num at hy
      omega
  | true =>
      have hy := daysBeforeMonthAux_year true d.month (by omega)
      have hstep := daysToYear_succ_leap (d.year - 1) (by rw [hs]; exact hl)
      rw [hs] at hstep
      rw [hl] at h5
      norm_num at hy
      omega

theorem toOrdinal_lt_of_dateLt (d1 d2 : Date) (h1 : d1.Valid) (h2 : d2.Valid)
    (h : dateLt d1 d2) : toOrdinal d1 < toOrdinal d2 := by
  rcases h with hy | ⟨hy, hm | ⟨hm, hd⟩⟩
  · have hA := toOrdinal_le_daysToYear d1 h1
    have hB : daysToYear d1.year ≤ daysToYear (d2.year - 1) := daysToYear_mono (by omega)
    have hC : daysToYear (d2.year - 1) < toOrdinal d2 := by
      obtain ⟨g1, g2, g3, g4, g5⟩ := h2
      unfold toOrdinal
      omega
    omega
  · obtain ⟨g1, g2, g3, g4, g5⟩ := h1
    obtain ⟨k1, k2, k3, k4, k5⟩ := h2
    unfold toOrdinal
    rw [hy]
    unfold daysInMonth at g5
    rw [hy] at g5
    have s1 : daysBeforeMonthAux (isLeap d2.year) (d1.month + 1) =
        daysBeforeMonthAux (isLeap d2.year) d1.month + daysInMonthAux (isLeap d2.year) d1.month :=
      daysBeforeMonthAux_succ _ _ (by omega)
    have s2 : daysBeforeMonthAux (isLeap d2.year) (d1.month + 1) ≤
        daysBeforeMonthAux (isLeap d2.year) d2.month :=
      daysBeforeMonthAux_mono (isLeap d2.year) d2.month (by omega) (d1.month + 1) (by omega)
        (by omega)
    omega
  · unfold toOrdinal
    rw [hy, hm]
    omega

theorem toOrdinal_le_of_dateLe (d1 d2 : Date) (h1 : d1.Valid) (h2 : d2.Valid)
    (h : dateLe d1 d2) : toOrdinal d1 ≤ toOrdinal d2 := by
  rcases h with hlt | heq
  · exact le_of_lt (toOrdinal_lt_of_dateLt d1 d2 h1 h2 hlt)
  · rw [heq]

theorem monthIndex_addMonths (d : Date) (m : Nat) :
    monthIndex (addMonths d m) = monthIndex d + m := by
  simp only [addMonths, monthIndex]
  omega

theorem addMonths_month_bounds (d : Date) (m : Nat) :
    1 ≤ (addMonths d m).month ∧ (addMonths d m).month ≤ 12 := by
  simp only [addMonths]
  omega

theorem addMonths_valid (d : Date) (m : Nat) (h : d.Valid) : (addMonths d m).Valid := by
  obtain ⟨h1, h2, h3, h4, h5⟩ := h
  have hp := daysInMonthAux_pos (isLeap ((monthIndex d + m) / 12))
    ((monthIndex d + m) % 12 + 1) (by omega)
  refine ⟨?_, ?_, ?_, ?_, ?_⟩
  · simp only [addMonths, monthIndex]
    omega
  · simp only [addMonths]
    omega
  · simp only [addMonths]
    omega
  · simp only [addMonths]
    unfold daysInMonth
    omega
  · simp only [addMonths]
    exact Nat.min_le_right _ _

theorem addMonths_zero (d : Date) (h : d.Valid) : addMonths d 0 = d := by
  obtain ⟨h1, h2, h3, h4, h5⟩ := h
  cases d with | mk y mo da =>
  simp only [addMonths, monthIndex] at *
  have hy : (12 * y + (mo - 1) + 0) / 12 = y := by omega
  have hm : (12 * y + (mo - 1) + 0) % 12 + 1 = mo := by omega
  simp only [Date.mk.injEq]
  refine ⟨hy, hm, ?_⟩
  rw [hy, hm]
  exact Nat.min_eq_left h5

theorem dateLt_of_monthIndex_lt (d1 d2 : Date) (b1 : 1 ≤ d1.month) (b2 : d1.month ≤ 12)
    (b3 : 1 ≤ d2.month) (b4 : d2.month ≤ 12) (h : monthIndex d1 < monthIndex d2) :
    dateLt d1 d2 := by
  unfold monthIndex at h
  unfold dateLt
  omega

theorem monthIndex_le_of_dateLe (d1 d2 : Date) (b2 : d1.month ≤ 12) (b3 : 1 ≤ d2.month)
    (h : dateLe d1 d2) : monthIndex d1 ≤ monthIndex d2 := by
  rw [dateLe_explicit] at h
  unfold monthIndex
  omega

theorem addMonths_relMonths_le (b e : Date) (hb : b.Valid) (he : e.Valid)
    (h : dateLe b e) : dateLe (addMonths b (relMonths e b)) e := by
  unfold relMonths
  split
  · rename_i hpos
    exact hpos
  · rename_i hneg
    by_cases hraw : monthIndex e - monthIndex b = 0
    · exact absurd (by rw [hraw, addMonths_zero b hb]; exact h) hneg
    · have hmi : monthIndex b ≤ monthIndex e :=
        monthIndex_le_of_dateLe b e hb.2.2.1 he.2.1 h
      apply dateLe_of_dateLt
      have hbnd := addMonths_month_bounds b (monthIndex e - monthIndex b - 1)
      apply dateLt_of_monthIndex_lt _ _ hbnd.1 hbnd.2 he.2.1 he.2.2.1
      rw [monthIndex_addMonths]
      omega

theorem relDays_nonneg (b e : Date) (hb : b.Valid) (he : e.Valid) (h : dateLe b e) :
    0 ≤ relDays e b := by
  unfold relDays
  have hle := addMonths_relMonths_le b e hb he h
  have := toOrdinal_le_of_dateLe _ _ (addMonths_valid b _ hb) he hle
  omega

theorem relMonths_mono (b e1 e2 : Date) (hb : b.Valid) (he1 : e1.Valid) (he2 : e2.Valid)
    (h1 : dateLe b e1) (h2 : dateLe e1 e2) : relMonths e1 b ≤ relMonths e2 b := by
  have hm12 : monthIndex e1 ≤ monthIndex e2 :=
    monthIndex_le_of_dateLe e1 e2 he1.2.2.1 he2.2.1 h2
  unfold relMonths
  split
  · rename_i hpos1
    split
    · rename_i hpos2
      omega
    · rename_i hneg2
      by_cases hr : monthIndex e1 - monthIndex b = monthIndex e2 - monthIndex b
      · exact absurd (by rw [← hr]; exact dateLe_trans hpos1 h2) hneg2
      · have hm1 : monthIndex b ≤ monthIndex e1 :=
          monthIndex_le_of_dateLe b e1 hb.2.2.1 he1.2.1 h1
        omega
  · rename_i hneg1
    split
    · omega
    · omega

theorem ay_sayisi_eq (b e : Date) (hb : b.Valid) (he : e.Valid) (h : dateLe b e) :
    ay_sayisi b e = relMonths e b + 1 := by
  unfold ay_sayisi
  rw [if_neg (not_dateLt_of_dateLe h), if_pos (relDays_nonneg b e hb he h)]
  omega

theorem relMonths_self (b : Date) (hb : b.Valid) : relMonths b b = 0 := by
  unfold relMonths
  rw [Nat.sub_self, addMonths_zero b hb, if_pos (dateLe_refl b)]

theorem ay_sayisi_self (b : Date) (hb : b.Valid) : ay_sayisi b b = 1 := by
  rw [ay_sayisi_eq b b hb hb (dateLe_refl b), relMonths_self b hb]

theorem ay_sayisi_mono (b e1 e2 : Date) (hb : b.Valid) (he1 : e1.Valid) (he2 : e2.Valid)
    (h1 : dateLe b e1) (h2 : dateLe e1 e2) : ay_sayisi b e1 ≤ ay_sayisi b e2 := by
  rw [ay_sayisi_eq b e1 hb he1 h1, ay_sayisi_eq b e2 hb he2 (dateLe_trans h1 h2)]
  have := relMonths_mono b e1 e2 hb he1 he2 h1 h2
  omega

/-! ## Data model (models.py) -/

/-- Row of the `transactions` table. The `type` field is the string
`"gelir"` (income) or `"gider"` (expense). -/
structure Txn where
  date : Date
  category_id : Nat
  description : String
  amount : ℚ
  account_id : Nat
  type : String
  emotion : Option String
deriving DecidableEq, Repr

/-- Embedding of `Transaction.signed_amount` (models.py): income counts
positively, everything else negatively. -/
def Txn.signed_amount (t : Txn) : ℚ :=
  if t.type = "gelir" then t.amount else -t.amount

/-- Embedding of `Account.balance` (models.py): `self.transactions` holds
exactly the ledger rows whose `account_id` is this account's id, and the
balance is the income sum minus the expense sum over those rows. -/
def balance (txs : List Txn) (accountId : Nat) : ℚ :=
  (((txs.filter fun t => t.account_id == accountId).filter fun t => t.type == "gelir").map
      (fun t => t.amount)).sum -
    (((txs.filter fun t => t.account_id == accountId).filter fun t => t.type == "gider").map
      (fun t => t.amount)).sum

/-- Row of the `savings_goals` table. -/
structure SavingsGoal where
  id : Nat
  name : String
  target_amount : ℚ
  start_date : Date
  target_date : Date
deriving DecidableEq, Repr

/-! ## Aggregation engine (app.py) -/

/-- First day of the month of `bugun`, as `bugun.replace(day=1)`. -/
def ay_baslangic (bugun : Date) : Date := { bugun with day := 1 }

/-- Embedding of the per-category current-month expense sum computed in
`_kategori_limit_durumlari` (app.py): expenses of the category dated in
`[first-of-month, first-of-next-month)`. -/
def aylik_harcama (txs : List Txn) (bugun : Date) (kategoriId : Nat) : ℚ :=
  ((txs.filter fun t =>
      t.type == "gider" && t.category_id == kategoriId &&
        decide (dateLe (ay_baslangic bugun) t.date) &&
        decide (dateLt t.date (addMonths (ay_baslangic bugun) 1))).map
    (fun t => t.amount)).sum

/-- One record of the list `_kategori_limit_durumlari` builds per category. -/
structure KategoriDurum where
  limit : Option ℚ
  aylikHarcama : ℚ
  limitAsildi : Bool
  kalanLimit : Option ℚ
  kullanilanOran : Option ℚ
deriving DecidableEq, Repr

/-- Embedding of the per-category branch of `_kategori_limit_durumlari`
(app.py): given the stored monthly limit and the month's spend, produce the
exceeded flag, remaining limit and used percentage. -/
def kategori_limit_durumu (limit : Option ℚ) (harcama : ℚ) : KategoriDurum :=
  match limit with
  | none => ⟨none, harcama, false, none, none⟩
  | some l =>
      let asildi : Bool := if 0 < l then decide (l < harcama) else decide (0 < harcama)
      ⟨some l, harcama, asildi, some (l - harcama),
        some (if 0 < l then harcama / l * 100 else if asildi then 100 else 0)⟩

/-- Embedding of the 30-day daily trend of `dashboard` (app.py): the rows of
the last 30 days are fetched (`date >= today - 29 days`), grouped by date
into signed-amount day sums, and the days from `today - 29 days` through
today are listed oldest first, missing days contributing `0.0`. Days are
identified by their ordinal number, which is a bijection onto valid dates. -/
def trend_verisi (txs : List Txn) (bugun : Date) : List ℚ :=
  (List.range 30).map fun i : Nat =>
    (((txs.filter fun t => decide ((toOrdinal bugun : Int) - 29 ≤ (toOrdinal t.date : Int))).filter
        fun t => decide ((toOrdinal t.date : Int) = (toOrdinal bugun : Int) - 29 + (i : Int))).map
      Txn.signed_amount).sum

/-- One row of the emotion summary shown on the dashboard. -/
structure DuyguOzet where
  emotion : String
  adet : Nat
  toplam : ℚ
  ortalama : ℚ
deriving DecidableEq, Repr

/-- Display order of the emotion summary: totals descending. -/
def duygu_ge (a b : DuyguOzet) : Prop := b.toplam ≤ a.toplam

instance : DecidableRel duygu_ge := fun a b => by unfold duygu_ge; infer_instance

instance : IsTotal DuyguOzet duygu_ge := ⟨fun a b => le_total b.toplam a.toplam⟩

instance : IsTrans DuyguOzet duygu_ge := ⟨fun _ _ _ h1 h2 => le_trans h2 h1⟩

/-- The rows the emotion-summary query of `dashboard` (app.py) ranges over:
expenses dated on or after the first of the current month whose emotion tag
is present and non-empty. The query has no upper date bound. -/
def duygu_islemleri (txs : List Txn) (bugun : Date) : List Txn :=
  txs.filter fun t =>
    t.type == "gider" && decide (dateLe (ay_baslangic bugun) t.date) &&
      t.emotion.isSome && (t.emotion.getD "" != "")

/-- The summary row of one emotion tag: row count, amount total, and the
average `total / count` (the query's groups are never empty). -/
def duygu_grup (txs : List Txn) (bugun : Date) (e : String) : DuyguOzet :=
  { emotion := e
    adet := ((duygu_islemleri txs bugun).filter fun t => t.emotion == some e).length
    toplam := (((duygu_islemleri txs bugun).filter fun t => t.emotion == some e).map
      (fun t => t.amount)).sum
    ortalama :=
      if ((duygu_islemleri txs bugun).filter fun t => t.emotion == some e).length ≠ 0 then
        (((duygu_islemleri txs bugun).filter fun t => t.emotion == some e).map
            (fun t => t.amount)).sum /
          (((duygu_islemleri txs bugun).filter fun t => t.emotion == some e).length : ℚ)
      else 0 }

/-- Embedding of the emotion summary of `dashboard` (app.py): group the
relevant rows by emotion tag and order the groups by total descending. -/
def duygu_ozeti (txs : List Txn) (bugun : Date) : List DuyguOzet :=
  List.insertionSort duygu_ge
    ((((duygu_islemleri txs bugun).map fun t => t.emotion.getD "").dedup).map
      (duygu_grup txs bugun))

/-! ## Savings-plan engine (app.py) -/

/-- Milestone thresholds of `GOAL_MILESTONES` (app.py); each threshold
carries a display title, message and variant, which are omitted here. -/
def GOAL_MILESTONES : List ℚ := [25, 50, 75, 100]

/-- Sum of the amounts of the transactions of type `tur` dated in the
inclusive window `[lo, hi]`, over the whole ledger. -/
def toplam_tutar (txs : List Txn) (tur : String) (lo hi : Date) : ℚ :=
  ((txs.filter fun t =>
      t.type == tur && decide (dateLe lo t.date) && decide (dateLe t.date hi)).map
    (fun t => t.amount)).sum

/-- The per-goal record `_tasarruf_planlarini_hazirla` (app.py) appends to
`planlar`. -/
structure Plan where
  id : Nat
  name : String
  target_amount : ℚ
  start_date : Date
  target_date : Date
  net_savings : ℚ
  remaining_amount : ℚ
  remaining_days : Int
  progress : ℚ
  recommended_monthly : ℚ
  actual_monthly : ℚ
  is_completed : Bool
  unlocked_milestones : List ℚ
  total_months : Nat
  elapsed_months : Nat
deriving DecidableEq, Repr

/-- Embedding of the body of the goal loop of `_tasarruf_planlarini_hazirla`
(app.py) for one savings goal, given the ledger and today's date. -/
def tasarruf_plani (txs : List Txn) (bugun : Date) (hedef : SavingsGoal) : Plan :=
  let baslangic := hedef.start_date
  let hedefTarihi := hedef.target_date
  let planSuresi := max (ay_sayisi baslangic hedefTarihi) 1
  let takipBitis := minDate hedefTarihi bugun
  let gelirToplam := toplam_tutar txs "gelir" baslangic takipBitis
  let giderToplam := toplam_tutar txs "gider" baslangic takipBitis
  let netBirikim := gelirToplam - giderToplam
  let kalanTutar := max 0 (hedef.target_amount - netBirikim)
  let kalanGun0 : Int := (toOrdinal hedefTarihi : Int) - (toOrdinal bugun : Int)
  let kalanGun := if 0 ≤ kalanGun0 then kalanGun0 else 0
  let ilerleme : ℚ :=
    if 0 < hedef.target_amount then
      max 0 (min 100 (netBirikim / hedef.target_amount * 100))
    else 0
  let gecenAySayisi := if dateLe baslangic bugun then ay_sayisi baslangic takipBitis else 0
  let ortalamaAylik := if gecenAySayisi ≠ 0 then netBirikim / (gecenAySayisi : ℚ) else 0
  let onerilenAylik :=
    if planSuresi ≠ 0 then hedef.target_amount / (planSuresi : ℚ) else hedef.target_amount
  { id := hedef.id
    name := hedef.name
    target_amount := hedef.target_amount
    start_date := baslangic
    target_date := hedefTarihi
    net_savings := netBirikim
    remaining_amount := kalanTutar
    remaining_days := kalanGun
    progress := ilerleme
    recommended_monthly := onerilenAylik
    actual_monthly := ortalamaAylik
    is_completed := decide (100 ≤ ilerleme)
    unlocked_milestones := GOAL_MILESTONES.filter fun th => decide (th ≤ ilerleme)
    total_months := planSuresi
    elapsed_months := gecenAySayisi }

/-! ## Form-handling routes (app.py) -/

/-- Outcome of the `POST /savings-goals` route: which flash message is shown
before redirecting back to the dashboard. -/
inductive GoalCreateResult
  | eksikAlan
  | tarihHatasi
  | kaydedildi
deriving DecidableEq, Repr

/-- Embedding of `create_savings_goal` (app.py). Parsed form fields arrive
as options (`none` = missing or unparseable); Python truthiness makes a
missing amount and an amount of `0.0` both falsy. On validation failure the
goal table is returned unchanged. -/
def create_savings_goal (bugun : Date) (ad : String) (hedefTutar : Option ℚ)
    (baslangicForm hedefForm : Option Date) (goals : List SavingsGoal) (nextId : Nat) :
    List SavingsGoal × GoalCreateResult :=
  let baslangic := baslangicForm.getD bugun
  if ad = "" ∨ hedefTutar.getD 0 = 0 ∨ hedefTutar.getD 0 ≤ 0 ∨ hedefForm = none then
    (goals, .eksikAlan)
  else
    let hedefTarihi := hedefForm.getD bugun
    if dateLt hedefTarihi baslangic then (goals, .tarihHatasi)
    else
      (goals ++ [{ id := nextId
                   name := ad
                   target_amount := hedefTutar.getD 0
                   start_date := baslangic
                   target_date := hedefTarihi }], .kaydedildi)

/-- Embedding of the POST branch of `transactions` (app.py): a new row is
appended unless category, account or amount is falsy (missing or zero). -/
def transactions_post (bugun : Date) (tarihForm : Option Date)
    (kategoriId hesapId : Option Nat) (tur aciklama : String) (miktar : Option ℚ)
    (duygu : String) (txs : List Txn) : List Txn :=
  if kategoriId.getD 0 = 0 ∨ hesapId.getD 0 = 0 ∨ miktar.getD 0 = 0 then txs
  else
    txs ++ [{ date := tarihForm.getD bugun
              category_id := kategoriId.getD 0
              description := aciklama
              amount := miktar.getD 0
              account_id := hesapId.getD 0
              type := tur
              emotion := if duygu = "" then none else some duygu }]

/-- Embedding of `update_transaction` (app.py): falsy (missing or zero)
category, account and amount values keep the stored ones; the type and
description fall back to the stored values only when the form omits them. -/
def update_transaction (islem : Txn) (tarihForm : Option Date)
    (kategoriId hesapId : Option Nat) (tur aciklama : Option String) (duygu : String)
    (amount : Option ℚ) : Txn :=
  { islem with
    date := tarihForm.getD islem.date
    category_id := if kategoriId.getD 0 = 0 then islem.category_id else kategoriId.getD 0
    account_id := if hesapId.getD 0 = 0 then islem.account_id else hesapId.getD 0
    type := tur.getD islem.type
    description := aciklama.getD islem.description
    emotion := if duygu = "" then none else some duygu
    amount := if amount.getD 0 = 0 then islem.amount else amount.getD 0 }

/-! ## Example values used by witnesses and counterexamples -/

/-- A sample "today" used to instantiate theorems on concrete data. -/
def tarihHaziran : Date := ⟨2024, 6, 15⟩

/-- A sample expense row of the current month of `tarihHaziran`. -/
def islemOrnek : Txn := ⟨⟨2024, 6, 10⟩, 1, "", 7, 1, "gider", none⟩

/-- A sample income row. -/
def islemGelir : Txn := ⟨⟨2024, 3, 1⟩, 1, "", 1000, 2, "gelir", none⟩

/-- A sample savings goal spanning the year 2024. -/
def hedefOrnek : SavingsGoal := ⟨1, "tatil", 1200, ⟨2024, 1, 1⟩, ⟨2024, 12, 31⟩⟩

/-! ## Claims -/

/-- Claim C1: for every account, `balance` returns the sum of the amounts of
that account's income transactions minus the sum of the amounts of that
account's expense transactions, counting only transactions belonging to that
account. -/
theorem c1_balance_income_minus_expense (txs : List Txn) (a : Nat) :
    balance txs a =
      ((txs.filter fun t => t.account_id == a && t.type == "gelir").map
          (fun t => t.amount)).sum -
        ((txs.filter fun t => t.account_id == a && t.type == "gider").map
          (fun t => t.amount)).sum := by
  unfold balance
  rw [List.filter_filter, List.filter_filter]
  have hc : ∀ p q : Txn → Bool,
      (txs.filter fun t => p t && q t) = txs.filter fun t => q t && p t := by
    intro p q
    apply List.filter_congr
    intro t _
    rw [Bool.and_comm]
  rw [hc (fun t => t.account_id == a) (fun t => t.type == "gelir"),
    hc (fun t => t.account_id == a) (fun t => t.type == "gider")]

/-- Claim C2: with `spent` the category's expense sum in the current
calendar-month window, the monthly-limit status satisfies: unset limit gives
`exceeded = false` and null remaining/percentage; a positive limit gives
`exceeded` iff `spent > limit` (equality is not exceeded), `remaining =
limit - spent` and `usedPercent = spent / limit * 100`; a zero limit gives
`exceeded` iff `spent > 0`, with `usedPercent = 100` when exceeded and `0`
when spent is zero. -/
theorem c2_kategori_limit (txs : List Txn) (bugun : Date) (k : Nat) (limit : Option ℚ) :
    (limit = none →
        (kategori_limit_durumu limit (aylik_harcama txs bugun k)).limitAsildi = false ∧
        (kategori_limit_durumu limit (aylik_harcama txs bugun k)).kalanLimit = none ∧
        (kategori_limit_durumu limit (aylik_harcama txs bugun k)).kullanilanOran = none) ∧
    (∀ l : ℚ, limit = some l → 0 < l →
        ((kategori_limit_durumu limit (aylik_harcama txs bugun k)).limitAsildi = true ↔
          l < aylik_harcama txs bugun k) ∧
        (aylik_harcama txs bugun k = l →
          (kategori_limit_durumu limit (aylik_harcama txs bugun k)).limitAsildi = false) ∧
        (kategori_limit_durumu limit (aylik_harcama txs bugun k)).kalanLimit =
          some (l - aylik_harcama txs bugun k) ∧
        (kategori_limit_durumu limit (aylik_harcama txs bugun k)).kullanilanOran =
          some (aylik_harcama txs bugun k / l * 100)) ∧
    (limit = some 0 →
        ((kategori_limit_durumu limit (aylik_harcama txs bugun k)).limitAsildi = true ↔
          0 < aylik_harcama txs bugun k) ∧
        (0 < aylik_harcama txs bugun k →
          (kategori_limit_durumu limit (aylik_harcama txs bugun k)).kullanilanOran = some 100) ∧
        (aylik_harcama txs bugun k = 0 →
          (kategori_limit_durumu limit (aylik_harcama txs bugun k)).kullanilanOran = some 0)) := by
  generalize aylik_harcama txs bugun k = s
  refine ⟨?_, ?_, ?_⟩
  · rintro rfl
    exact ⟨rfl, rfl, rfl⟩
  · rintro l rfl hl
    refine ⟨?_, ?_, ?_, ?_⟩
    · simp [kategori_limit_durumu, hl]
    · intro hs
      simp [kategori_limit_durumu, hl, hs]
    · rfl
    · simp [kategori_limit_durumu, hl]
  · rintro rfl
    refine ⟨?_, ?_, ?_⟩
    · simp [kategori_limit_durumu]
    · intro hs
      simp [kategori_limit_durumu, hs, not_lt.mpr (le_refl (0 : ℚ))]
    · intro hs
      simp [kategori_limit_durumu, hs]

/-- Witness for C2 at a concrete category state: limit 5 and a month spend
of 7 in June 2024. -/
theorem c2_kategori_limit_witness :
    ((some (5 : ℚ) = some 5 ∧ (0 : ℚ) < 5) ∧
      ((kategori_limit_durumu (some 5) (aylik_harcama [islemOrnek] tarihHaziran 1)).limitAsildi =
          true ↔
        (5 : ℚ) < aylik_harcama [islemOrnek] tarihHaziran 1)) ∧
    aylik_harcama [islemOrnek] tarihHaziran 1 = 7 :=
  ⟨⟨⟨rfl, by norm_num⟩,
    ((c2_kategori_limit [islemOrnek] tarihHaziran 1 (some 5)).2.1 5 rfl (by norm_num)).1⟩,
    by simp +decide [aylik_harcama, islemOrnek, tarihHaziran]⟩

/-- Claim C6: a savings-goal creation request whose target date precedes its
start date is rejected (the flash is an error, not a saved-goal message) and
the stored goal list is unchanged. -/
theorem c6_goal_rejected (bugun : Date) (ad : String) (hedefTutar : Option ℚ)
    (baslangicForm : Option Date) (goals : List SavingsGoal) (nextId : Nat) (td : Date)
    (h : dateLt td (baslangicForm.getD bugun)) :
    (create_savings_goal bugun ad hedefTutar baslangicForm (some td) goals nextId).1 = goals ∧
    (create_savings_goal bugun ad hedefTutar baslangicForm (some td) goals nextId).2 ≠
      GoalCreateResult.kaydedildi := by
  unfold create_savings_goal
  split
  · exact ⟨rfl, by simp⟩
  · simp only [Option.getD_some]
    rw [if_pos h]
    exact ⟨rfl, by simp⟩

/-- Witness for C6: a goal form dated June 1 with implicit start date
June 15 (today) is rejected and writes nothing. -/
theorem c6_goal_rejected_witness :
    dateLt ⟨2024, 6, 1⟩ ((none : Option Date).getD tarihHaziran) ∧
    ((create_savings_goal tarihHaziran "tatil" (some 100) none (some ⟨2024, 6, 1⟩) [] 1).1 = [] ∧
      (create_savings_goal tarihHaziran "tatil" (some 100) none (some ⟨2024, 6, 1⟩) [] 1).2 ≠
        GoalCreateResult.kaydedildi) :=
  ⟨by decide,
    c6_goal_rejected tarihHaziran "tatil" (some 100) none [] 1 ⟨2024, 6, 1⟩ (by decide)⟩

/-- The transaction row that refutes claim C7: a negative-amount form
accepted by the create route. -/
def islemEksi : Txn := ⟨tarihHaziran, 1, "", -5, 1, "gider", none⟩

/-- Claim C7 is false as stated: the create route's guard only rejects falsy
amounts (missing or zero), so a form whose amount parses to `-5` — a
non-positive number — is not aborted and a row with amount `-5 ≤ 0` is
written. -/
theorem c7_counterexample :
    transactions_post tarihHaziran none (some 1) (some 1) "gider" "" (some (-5)) "" [] =
      [islemEksi] ∧
    islemEksi.amount ≤ 0 ∧ islemEksi.amount ≠ 0 := by
  refine ⟨?_, by norm_num [islemEksi], by norm_num [islemEksi]⟩
  rfl

/-- Claim C7, amended: the create route aborts (writing no row) exactly when
the parsed amount is falsy — missing or zero — and the update route keeps
the stored amount in that case; a non-zero amount, including a negative one,
is accepted and stored as given, so `amount > 0` is not enforced. -/
theorem c7_amended (bugun : Date) (tarihForm : Option Date) (kategoriId hesapId : Option Nat)
    (tur aciklama : String) (turU aciklamaU : Option String) (duygu : String) (txs : List Txn)
    (islem : Txn) :
    (∀ miktar : Option ℚ, miktar.getD 0 = 0 →
        transactions_post bugun tarihForm kategoriId hesapId tur aciklama miktar duygu txs =
          txs) ∧
    (∀ amount : Option ℚ, amount.getD 0 = 0 →
        (update_transaction islem tarihForm kategoriId hesapId turU aciklamaU duygu
            amount).amount =
          islem.amount) ∧
    (∀ miktar : ℚ, miktar ≠ 0 → ¬kategoriId.getD 0 = 0 → ¬hesapId.getD 0 = 0 →
        ∃ yeni : Txn,
          transactions_post bugun tarihForm kategoriId hesapId tur aciklama (some miktar) duygu
              txs =
            txs ++ [yeni] ∧ yeni.amount = miktar) := by
  refine ⟨?_, ?_, ?_⟩
  · intro miktar h
    unfold transactions_post
    rw [if_pos (Or.inr (Or.inr h))]
  · intro amount h
    unfold update_transaction
    simp [h]
  · intro miktar h1 h2 h3
    unfold transactions_post
    rw [if_neg]
    · exact ⟨_, rfl, rfl⟩
    · rintro (hc | hc | hc)
      · exact h2 hc
      · exact h3 hc
      · exact h1 (by simpa using hc)

/-- Witness for the amended C7: a zero amount writes nothing, and an amount
of `-5` appends a row holding `-5`. -/
theorem c7_amended_witness :
    ((some (0 : ℚ)).getD 0 = 0 ∧
      transactions_post tarihHaziran none (some 1) (some 1) "gider" "" (some 0) "" [] = []) ∧
    ((-5 : ℚ) ≠ 0 ∧
      ∃ yeni : Txn,
        transactions_post tarihHaziran none (some 1) (some 1) "gider" "" (some (-5)) "" [] =
          [] ++ [yeni] ∧ yeni.amount = -5) :=
  ⟨⟨rfl,
    (c7_amended tarihHaziran none (some 1) (some 1) "gider" "" none none "" [] islemEksi).1
      (some 0) rfl⟩,
    ⟨by norm_num,
      (c7_amended tarihHaziran none (some 1) (some 1) "gider" "" none none "" [] islemEksi).2.2
        (-5) (by norm_num) (by decide) (by decide)⟩⟩

/-- Claim C3: for a goal with target date not before the start date, the
plan duration is the whole-month difference plus one when the remaining
day-of-month delta is nonnegative, floored at 1; in particular equal start
and target dates give a duration of 1, and the recommended monthly rate is
the target amount divided by this nonzero duration. -/
theorem c3_plan_duration (txs : List Txn) (bugun : Date) (hedef : SavingsGoal)
    (hb : hedef.start_date.Valid) (ht : hedef.target_date.Valid)
    (hle : dateLe hedef.start_date hedef.target_date) :
    (tasarruf_plani txs bugun hedef).total_months =
      max (relMonths hedef.target_date hedef.start_date +
        (if 0 ≤ relDays hedef.target_date hedef.start_date then 1 else 0)) 1 ∧
    1 ≤ (tasarruf_plani txs bugun hedef).total_months ∧
    (hedef.target_date = hedef.start_date →
      (tasarruf_plani txs bugun hedef).total_months = 1) ∧
    (tasarruf_plani txs bugun hedef).recommended_monthly =
      hedef.target_amount / ((tasarruf_plani txs bugun hedef).total_months : ℚ) ∧
    ((tasarruf_plani txs bugun hedef).total_months : ℚ) ≠ 0 := by
  have htm : (tasarruf_plani txs bugun hedef).total_months =
      max (ay_sayisi hedef.start_date hedef.target_date) 1 := rfl
  have hay : ay_sayisi hedef.start_date hedef.target_date =
      max (relMonths hedef.target_date hedef.start_date +
        (if 0 ≤ relDays hedef.target_date hedef.start_date then 1 else 0)) 1 := by
    unfold ay_sayisi
    rw [if_neg (not_dateLt_of_dateLe hle)]
  have hne : max (ay_sayisi hedef.start_date hedef.target_date) 1 ≠ 0 := by omega
  have hrec : (tasarruf_plani txs bugun hedef).recommended_monthly =
      if max (ay_sayisi hedef.start_date hedef.target_date) 1 ≠ 0 then
        hedef.target_amount / ((max (ay_sayisi hedef.start_date hedef.target_date) 1 : ℕ) : ℚ)
      else hedef.target_amount := rfl
  refine ⟨?_, ?_, ?_, ?_, ?_⟩
  · rw [htm, hay, max_assoc, max_self]
  · rw [htm]
    omega
  · intro he
    rw [htm, he, ay_sayisi_self hedef.start_date hb, max_self]
  · rw [hrec, if_pos hne, htm]
  · rw [htm]
    exact_mod_cast hne

/-- Witness for C3 at the concrete 2024 goal. -/
theorem c3_plan_duration_witness :
    (hedefOrnek.start_date.Valid ∧ hedefOrnek.target_date.Valid ∧
      dateLe hedefOrnek.start_date hedefOrnek.target_date) ∧
    1 ≤ (tasarruf_plani [] tarihHaziran hedefOrnek).total_months ∧
    ((tasarruf_plani [] tarihHaziran hedefOrnek).total_months : ℚ) ≠ 0 :=
  ⟨⟨by decide, by decide, by decide⟩,
    (c3_plan_duration [] tarihHaziran hedefOrnek (by decide) (by decide) (by decide)).2.1,
    (c3_plan_duration [] tarihHaziran hedefOrnek (by decide) (by decide) (by decide)).2.2.2.2⟩

/-- Claim C10: when the goal window is well-formed and tracking has started,
the elapsed month count never exceeds the plan duration, so the actual
monthly rate is averaged over at most the plan duration. -/
theorem c10_elapsed_le_total (txs : List Txn) (bugun : Date) (hedef : SavingsGoal)
    (hb : hedef.start_date.Valid) (ht : hedef.target_date.Valid) (hg : bugun.Valid)
    (h1 : dateLe hedef.start_date hedef.target_date)
    (h2 : dateLe hedef.start_date bugun) :
    (tasarruf_plani txs bugun hedef).elapsed_months ≤
      (tasarruf_plani txs bugun hedef).total_months := by
  have helapsed : (tasarruf_plani txs bugun hedef).elapsed_months =
      if dateLe hedef.start_date bugun then
        ay_sayisi hedef.start_date (minDate hedef.target_date bugun)
      else 0 := rfl
  have htotal : (tasarruf_plani txs bugun hedef).total_months =
      max (ay_sayisi hedef.start_date hedef.target_date) 1 := rfl
  rw [helapsed, htotal, if_pos h2]
  have hkey : ay_sayisi hedef.start_date (minDate hedef.target_date bugun) ≤
      ay_sayisi hedef.start_date hedef.target_date := by
    unfold minDate
    split
    · rename_i hlt
      exact ay_sayisi_mono _ _ _ hb hg ht h2 (dateLe_of_dateLt hlt)
    · exact le_refl _
  exact le_trans hkey (le_max_left _ _)

/-- Witness for C10 halfway through the concrete 2024 goal. -/
theorem c10_elapsed_le_total_witness :
    (hedefOrnek.start_date.Valid ∧ hedefOrnek.target_date.Valid ∧ tarihHaziran.Valid ∧
      dateLe hedefOrnek.start_date hedefOrnek.target_date ∧
      dateLe hedefOrnek.start_date tarihHaziran) ∧
    (tasarruf_plani [islemGelir] tarihHaziran hedefOrnek).elapsed_months ≤
      (tasarruf_plani [islemGelir] tarihHaziran hedefOrnek).total_months :=
  ⟨⟨by decide, by decide, by decide, by decide, by decide⟩,
    c10_elapsed_le_total [islemGelir] tarihHaziran hedefOrnek (by decide) (by decide)
      (by decide) (by decide) (by decide)⟩

/-- Relabelling transactions without touching date, type or amount leaves a
windowed type-sum unchanged. -/
theorem toplam_tutar_map (txs : List Txn) (tur : String) (lo hi : Date) (r : Txn → Txn)
    (hr : ∀ t, (r t).date = t.date ∧ (r t).type = t.type ∧ (r t).amount = t.amount) :
    toplam_tutar (txs.map r) tur lo hi = toplam_tutar txs tur lo hi := by
  unfold toplam_tutar
  induction txs with
  | nil => rfl
  | cons t ts ih =>
      obtain ⟨h1, h2, h3⟩ := hr t
      simp only [List.map_cons, List.filter_cons, h1, h2]
      split
      · simp only [List.map_cons, List.sum_cons, h3]
        rw [ih]
      · exact ih

/-- Claim C4: a goal's net savings is the income sum minus the expense sum
over the inclusive window from the start date to `min(target date, today)`,
taken over the whole ledger; reassigning every transaction's category and
account ids arbitrarily does not change it. -/
theorem c4_net_savings_global (txs : List Txn) (bugun : Date) (hedef : SavingsGoal) :
    ((tasarruf_plani txs bugun hedef).net_savings =
      ((txs.filter fun t => t.type == "gelir" && decide (dateLe hedef.start_date t.date) &&
          decide (dateLe t.date (minDate hedef.target_date bugun))).map
        (fun t => t.amount)).sum -
        ((txs.filter fun t => t.type == "gider" && decide (dateLe hedef.start_date t.date) &&
            decide (dateLe t.date (minDate hedef.target_date bugun))).map
          (fun t => t.amount)).sum) ∧
    ∀ f g : Nat → Nat,
      (tasarruf_plani
          (txs.map fun t => { t with category_id := f t.category_id, account_id := g t.account_id })
          bugun hedef).net_savings =
        (tasarruf_plani txs bugun hedef).net_savings := by
  have hnet : ∀ l : List Txn, (tasarruf_plani l bugun hedef).net_savings =
      toplam_tutar l "gelir" hedef.start_date (minDate hedef.target_date bugun) -
        toplam_tutar l "gider" hedef.start_date (minDate hedef.target_date bugun) :=
    fun l => rfl
  refine ⟨rfl, ?_⟩
  intro f g
  rw [hnet, hnet,
    toplam_tutar_map txs "gelir" hedef.start_date (minDate hedef.target_date bugun)
      (fun t => { t with category_id := f t.category_id, account_id := g t.account_id })
      (fun t => ⟨rfl, rfl, rfl⟩),
    toplam_tutar_map txs "gider" hedef.start_date (minDate hedef.target_date bugun)
      (fun t => { t with category_id := f t.category_id, account_id := g t.account_id })
      (fun t => ⟨rfl, rfl, rfl⟩)]

/-- Claim C5: a goal unlocks exactly the milestones whose threshold is at
most its progress percentage, and the unlocked set is monotone: a ledger
state with at least as much net savings (all else equal) unlocks every
milestone the first state unlocked. -/
theorem c5_milestones_monotone (txs1 txs2 : List Txn) (bugun : Date) (hedef : SavingsGoal)
    (hnet : (tasarruf_plani txs1 bugun hedef).net_savings ≤
      (tasarruf_plani txs2 bugun hedef).net_savings) :
    (∀ th : ℚ, th ∈ (tasarruf_plani txs1 bugun hedef).unlocked_milestones ↔
        th ∈ GOAL_MILESTONES ∧ th ≤ (tasarruf_plani txs1 bugun hedef).progress) ∧
    ∀ th : ℚ, th ∈ (tasarruf_plani txs1 bugun hedef).unlocked_milestones →
      th ∈ (tasarruf_plani txs2 bugun hedef).unlocked_milestones := by
  have hunlock : ∀ l : List Txn, (tasarruf_plani l bugun hedef).unlocked_milestones =
      GOAL_MILESTONES.filter fun th => decide (th ≤ (tasarruf_plani l bugun hedef).progress) :=
    fun l => rfl
  have hprog : ∀ l : List Txn, (tasarruf_plani l bugun hedef).progress =
      if 0 < hedef.target_amount then
        max 0 (min 100 ((tasarruf_plani l bugun hedef).net_savings / hedef.target_amount * 100))
      else 0 := fun l => rfl
  have hmono : (tasarruf_plani txs1 bugun hedef).progress ≤
      (tasarruf_plani txs2 bugun hedef).progress := by
    rw [hprog txs1, hprog txs2]
    by_cases hA : 0 < hedef.target_amount
    · rw [if_pos hA, if_pos hA]
      have hdiv : (tasarruf_plani txs1 bugun hedef).net_savings / hedef.target_amount * 100 ≤
          (tasarruf_plani txs2 bugun hedef).net_savings / hedef.target_amount * 100 := by
        gcongr
      exact max_le_max (le_refl 0) (min_le_min (le_refl 100) hdiv)
    · rw [if_neg hA, if_neg hA]
  refine ⟨?_, ?_⟩
  · intro th
    rw [hunlock txs1, List.mem_filter, decide_eq_true_eq]
  · intro th hmem
    rw [hunlock txs1, List.mem_filter, decide_eq_true_eq] at hmem
    rw [hunlock txs2, List.mem_filter, decide_eq_true_eq]
    exact ⟨hmem.1, le_trans hmem.2 hmono⟩

/-- Witness for C5: adding a 1000 income to an empty ledger preserves every
unlocked milestone of the 2024 goal. -/
theorem c5_milestones_monotone_witness :
    ((tasarruf_plani [] tarihHaziran hedefOrnek).net_savings ≤
      (tasarruf_plani [islemGelir] tarihHaziran hedefOrnek).net_savings) ∧
    ∀ th : ℚ, th ∈ (tasarruf_plani [] tarihHaziran hedefOrnek).unlocked_milestones →
      th ∈ (tasarruf_plani [islemGelir] tarihHaziran hedefOrnek).unlocked_milestones := by
  have h : ∀ l : List Txn, (tasarruf_plani l tarihHaziran hedefOrnek).net_savings =
      toplam_tutar l "gelir" hedefOrnek.start_date (minDate hedefOrnek.target_date tarihHaziran) -
        toplam_tutar l "gider" hedefOrnek.start_date (minDate hedefOrnek.target_date tarihHaziran) :=
    fun l => rfl
  have hnet : (tasarruf_plani [] tarihHaziran hedefOrnek).net_savings ≤
      (tasarruf_plani [islemGelir] tarihHaziran hedefOrnek).net_savings := by
    rw [h, h]
    simp +decide [toplam_tutar, islemGelir, tarihHaziran, hedefOrnek, minDate]
  exact ⟨hnet, (c5_milestones_monotone [] [islemGelir] tarihHaziran hedefOrnek hnet).2⟩

/-- Claim C8: the 30-day trend has exactly 30 entries, one per calendar day
from 29 days before today through today in oldest-first order; entry `i` is
the sum of the signed amounts of the transactions dated `i` days after the
window start, and a day without transactions reports 0. -/
theorem c8_trend (txs : List Txn) (bugun : Date) (i : Nat) (hi : i < 30) :
    (trend_verisi txs bugun).length = 30 ∧
    (trend_verisi txs bugun).getD i 0 =
      ((txs.filter fun t =>
          decide ((toOrdinal t.date : Int) = (toOrdinal bugun : Int) - 29 + i)).map
        Txn.signed_amount).sum ∧
    ((∀ t ∈ txs, (toOrdinal t.date : Int) ≠ (toOrdinal bugun : Int) - 29 + i) →
      (trend_verisi txs bugun).getD i 0 = 0) := by
  have hff : ((txs.filter fun t =>
        decide ((toOrdinal bugun : Int) - 29 ≤ (toOrdinal t.date : Int))).filter
      fun t => decide ((toOrdinal t.date : Int) = (toOrdinal bugun : Int) - 29 + i)) =
      txs.filter fun t =>
        decide ((toOrdinal t.date : Int) = (toOrdinal bugun : Int) - 29 + i) := by
    rw [List.filter_filter]
    apply List.filter_congr
    intro t _
    by_cases hq : (toOrdinal t.date : Int) = (toOrdinal bugun : Int) - 29 + i
    · have hp : (toOrdinal bugun : Int) - 29 ≤ (toOrdinal t.date : Int) := by omega
      simp [hq, hp]
    · simp [hq]
  have hlen : (trend_verisi txs bugun).length = 30 := by
    unfold trend_verisi
    rw [List.length_map, List.length_range]
  have hget : (trend_verisi txs bugun).getD i 0 =
      ((txs.filter fun t =>
          decide ((toOrdinal t.date : Int) = (toOrdinal bugun : Int) - 29 + i)).map
        Txn.signed_amount).sum := by
    unfold trend_verisi
    rw [List.getD_eq_getElem?_getD, List.getElem?_map, List.getElem?_range hi]
    simp only [Option.map_some', Option.getD_some]
    rw [hff]
  refine ⟨hlen, hget, ?_⟩
  intro hnone
  rw [hget]
  have : (txs.filter fun t =>
      decide ((toOrdinal t.date : Int) = (toOrdinal bugun : Int) - 29 + i)) = [] := by
    rw [List.filter_eq_nil_iff]
    intro t ht
    simpa using hnone t ht
  rw [this]
  simp

/-- A small-year today and expense used to instantiate the trend claim
without deep ordinal evaluation. -/
def tarihKucuk : Date := ⟨5, 6, 15⟩

/-- An expense five days before `tarihKucuk`. -/
def islemKucuk : Txn := ⟨⟨5, 6, 10⟩, 1, "", 3, 1, "gider", none⟩

/-- Witness for C8 at the last window day of a one-transaction ledger. -/
theorem c8_trend_witness :
    29 < 30 ∧
    ((trend_verisi [islemKucuk] tarihKucuk).length = 30 ∧
      (trend_verisi [islemKucuk] tarihKucuk).getD 29 0 =
        (([islemKucuk].filter fun t =>
            decide ((toOrdinal t.date : Int) = (toOrdinal tarihKucuk : Int) - 29 + 29)).map
          Txn.signed_amount).sum ∧
      ((∀ t ∈ [islemKucuk],
          (toOrdinal t.date : Int) ≠ (toOrdinal tarihKucuk : Int) - 29 + 29) →
        (trend_verisi [islemKucuk] tarihKucuk).getD 29 0 = 0)) :=
  ⟨by omega, c8_trend [islemKucuk] tarihKucuk 29 (by omega)⟩

/-- Characterisation of the rows the emotion summary ranges over. -/
theorem mem_duygu_islemleri (txs : List Txn) (bugun : Date) (t : Txn) :
    t ∈ duygu_islemleri txs bugun ↔
      t ∈ txs ∧ t.type = "gider" ∧ dateLe (ay_baslangic bugun) t.date ∧
        ∃ e : String, t.emotion = some e ∧ e ≠ "" := by
  unfold duygu_islemleri
  rw [List.mem_filter]
  simp only [Bool.and_eq_true, beq_iff_eq, decide_eq_true_eq, bne_iff_ne]
  cases he : t.emotion with
  | none => simp [he]
  | some e =>
      simp only [he, Option.isSome_some, Option.getD_some, Option.some.injEq, true_and,
        exists_eq_left']
      tauto

/-- A tag appears among the grouped emotions iff some relevant row carries
it. -/
theorem mem_duygu_etiketleri (txs : List Txn) (bugun : Date) (e : String) :
    e ∈ ((duygu_islemleri txs bugun).map fun t => t.emotion.getD "").dedup ↔
      ∃ t ∈ duygu_islemleri txs bugun, t.emotion = some e := by
  rw [List.mem_dedup, List.mem_map]
  constructor
  · rintro ⟨t, ht, rfl⟩
    obtain ⟨-, -, -, e2, he2, -⟩ := (mem_duygu_islemleri txs bugun t).mp ht
    refine ⟨t, ht, ?_⟩
    rw [he2]
    simp
  · rintro ⟨t, ht, he⟩
    refine ⟨t, ht, ?_⟩
    rw [he]
    rfl

/-- The emotion summary is the sorted image of the grouped tags. -/
theorem mem_duygu_ozeti (txs : List Txn) (bugun : Date) (x : DuyguOzet) :
    x ∈ duygu_ozeti txs bugun ↔
      ∃ e ∈ ((duygu_islemleri txs bugun).map fun t => t.emotion.getD "").dedup,
        duygu_grup txs bugun e = x := by
  unfold duygu_ozeti
  rw [(List.perm_insertionSort duygu_ge _).mem_iff, List.mem_map]

/-- Claim C9, amended: the emotion summary groups exactly the expense
transactions dated on or after the first day of the current month (the query
has no upper date bound, so later-dated expenses are included too) that
carry a non-empty emotion tag; per tag it reports the row count, the total
spent and the average `total / count`, and the groups are ordered by total
descending. -/
theorem c9_amended_emotion (txs : List Txn) (bugun : Date) :
    (∀ x ∈ duygu_ozeti txs bugun,
        x.emotion ≠ "" ∧
        x.adet =
          ((duygu_islemleri txs bugun).filter fun t => t.emotion == some x.emotion).length ∧
        x.adet ≠ 0 ∧
        x.toplam =
          (((duygu_islemleri txs bugun).filter fun t => t.emotion == some x.emotion).map
            (fun t => t.amount)).sum ∧
        x.ortalama = x.toplam / (x.adet : ℚ)) ∧
    (∀ e : String,
        (∃ x ∈ duygu_ozeti txs bugun, x.emotion = e) ↔
          ∃ t ∈ txs, t.type = "gider" ∧ dateLe (ay_baslangic bugun) t.date ∧
            t.emotion = some e ∧ e ≠ "") ∧
    List.Sorted duygu_ge (duygu_ozeti txs bugun) := by
  refine ⟨?_, ?_, ?_⟩
  · intro x hx
    obtain ⟨e, he, rfl⟩ := (mem_duygu_ozeti txs bugun x).mp hx
    obtain ⟨t, ht, hte⟩ := (mem_duygu_etiketleri txs bugun e).mp he
    have hne : e ≠ "" := by
      obtain ⟨-, -, -, e2, he2, hne2⟩ := (mem_duygu_islemleri txs bugun t).mp ht
      rw [hte] at he2
      injection he2 with he3
      rw [he3]
      exact hne2
    have hmemf : t ∈ (duygu_islemleri txs bugun).filter fun t => t.emotion == some e :=
      List.mem_filter.mpr ⟨ht, by rw [hte]; simp⟩
    have hlen : ((duygu_islemleri txs bugun).filter
        fun t => t.emotion == some e).length ≠ 0 := by
      have := List.length_pos_of_mem hmemf
      omega
    refine ⟨hne, rfl, hlen, rfl, ?_⟩
    show (duygu_grup txs bugun e).ortalama = _
    unfold duygu_grup
    rw [if_pos hlen]
  · intro e
    constructor
    · rintro ⟨x, hx, rfl⟩
      obtain ⟨e2, he2, rfl⟩ := (mem_duygu_ozeti txs bugun x).mp hx
      obtain ⟨t, ht, hte⟩ := (mem_duygu_etiketleri txs bugun e2).mp he2
      obtain ⟨htxs, hty, hdl, e3, he3, hne3⟩ := (mem_duygu_islemleri txs bugun t).mp ht
      rw [hte] at he3
      injection he3 with he4
      exact ⟨t, htxs, hty, hdl, hte, by rw [he4]; exact hne3⟩
    · rintro ⟨t, htxs, hty, hdl, hte, hne⟩
      have ht : t ∈ duygu_islemleri txs bugun :=
        (mem_duygu_islemleri txs bugun t).mpr ⟨htxs, hty, hdl, e, hte, hne⟩
      refine ⟨duygu_grup txs bugun e, ?_, rfl⟩
      exact (mem_duygu_ozeti txs bugun _).mpr
        ⟨e, (mem_duygu_etiketleri txs bugun e).mpr ⟨t, ht, hte⟩, rfl⟩
  · unfold duygu_ozeti
    exact List.sorted_insertionSort duygu_ge _

/-- An expense dated in July, after the June "today", tagged with an
emotion. -/
def islemTemmuz : Txn := ⟨⟨2024, 7, 3⟩, 1, "", 10, 1, "gider", some "stres"⟩

/-- Claim C9 is false as stated: with today on June 15, a ledger whose only
row is an expense dated July 3 — outside the current calendar month — still
produces an emotion group, because the query has no upper date bound. -/
theorem c9_counterexample :
    (∃ x ∈ duygu_ozeti [islemTemmuz] tarihHaziran, x.emotion = "stres") ∧
    ¬ dateLt islemTemmuz.date (addMonths (ay_baslangic tarihHaziran) 1) := by
  constructor
  · refine ⟨duygu_grup [islemTemmuz] tarihHaziran "stres", ?_, rfl⟩
    apply (mem_duygu_ozeti _ _ _).mpr
    refine ⟨"stres", (mem_duygu_etiketleri _ _ _).mpr ⟨islemTemmuz, ?_, rfl⟩, rfl⟩
    apply (mem_duygu_islemleri _ _ _).mpr
    exact ⟨List.mem_singleton_self _, rfl, by decide, "stres", rfl, by decide⟩
  · decide

/-- Witness for the amended C9: the July expense group is non-empty and its
tag is non-empty. -/
theorem c9_amended_emotion_witness :
    (duygu_grup [islemTemmuz] tarihHaziran "stres").emotion ≠ "" ∧
    (duygu_grup [islemTemmuz] tarihHaziran "stres").adet ≠ 0 := by
  have hmem : duygu_grup [islemTemmuz] tarihHaziran "stres" ∈
      duygu_ozeti [islemTemmuz] tarihHaziran := by
    apply (mem_duygu_ozeti _ _ _).mpr
    refine ⟨"stres", (mem_duygu_etiketleri _ _ _).mpr ⟨islemTemmuz, ?_, rfl⟩, rfl⟩
    apply (mem_duygu_islemleri _ _ _).mpr
    exact ⟨List.mem_singleton_self _, rfl, by decide, "stres", rfl, by decide⟩
  have h := (c9_amended_emotion [islemTemmuz] tarihHaziran).1 _ hmem
  exact ⟨h.1, h.2.2.1⟩
